import Mathlib

/-!
Shallow embedding of `src/server/src/main.rs` of the `alexture/wallet`
repository: the bootstrap / module-orchestration `main` of the wallet server.

The external crates (`hyle_modules`, the node/indexer HTTP clients, tokio)
are opaque collaborators: every fallible external call is abstracted by an
`Env` field that fixes its outcome, and `runMain` is the straight-line
control flow of `main` over that environment.  Where an external behaviour
is needed to settle a claim and is not visible in `src/` (what a module does
to the shared router during construction, when `start_modules` resolves),
the definition is modelled from the spec and says so in its doc comment.
-/

namespace WalletServer

/-- Contract names are plain strings (`sdk::ContractName` wraps a `String`;
`args.wallet_cn.clone().into()` and `"oranj".into()` in `main.rs`). -/
abbrev ContractName := String

/-- Opaque program identifier constants; `contracts::WALLET_ID` is the only
one that appears in the registration list in `main.rs`. -/
inductive ProgramId
  | WALLET_ID
deriving DecidableEq, Repr

/-- Opaque state commitments; `Wallet::default().commit()` is the only one
used in `main.rs`. -/
inductive StateCommitment
  | walletDefaultCommit
deriving DecidableEq, Repr

/-- One entry of the pre-flight registration list (`init::ContractInit`). -/
structure ContractInit where
  name : ContractName
  program_id : ProgramId
  initial_state : StateCommitment
deriving DecidableEq, Repr

/-- Command-line arguments (`Args` in `main.rs`). -/
structure Args where
  config_file : List String
  wallet_cn : String
deriving DecidableEq, Repr

/-- The clap defaults: `--config_file config.toml`, `--wallet_cn wallet`. -/
def Args.defaults : Args := ⟨["config.toml"], "wallet"⟩

/-- The configuration fields of `Conf` that `main` reads. -/
structure Conf where
  id : String
  log_format : String
  node_url : String
  indexer_url : String
  data_directory : String
  wallet_buffer_blocks : Nat
  wallet_max_txs_per_proof : Nat
  smt_buffer_blocks : Nat
  smt_max_txs_per_proof : Nat
  rest_server_port : Nat
  rest_server_max_body_size : Nat
  da_read_from : String
  websocket : String
deriving DecidableEq, Repr

/-- The registration list built in `main.rs`: exactly one entry, the wallet
contract under the `--wallet_cn` name, with `contracts::WALLET_ID` and
`Wallet::default().commit()` as initial state. -/
def contracts (wallet_cn : ContractName) : List ContractInit :=
  [⟨wallet_cn, ProgramId.WALLET_ID, StateCommitment.walletDefaultCommit⟩]

/-- The eight modules `main` builds, named after their Rust types and
type parameters. -/
inductive ModuleKind
  | AppModule
  | WalletIndexer
  | OranjIndexer
  | WalletProver
  | OranjProver
  | WebSocket
  | DAListener
  | RestApi
deriving DecidableEq, Repr

/-- The `AppModuleCtx` fields that carry a contract name. -/
structure AppModuleCtx where
  wallet_cn : ContractName
deriving DecidableEq, Repr

/-- The `ContractStateIndexerCtx` fields `main` fills in. -/
structure ContractStateIndexerCtx where
  contract_name : ContractName
  data_directory : String
deriving DecidableEq, Repr

/-- The `AutoProverCtx` fields `main` fills in (the prover backend and node
client handle are opaque collaborators and are omitted). -/
structure AutoProverCtx where
  data_directory : String
  contract_name : ContractName
  buffer_blocks : Nat
  max_txs_per_proof : Nat
deriving DecidableEq, Repr

/-- Context passed to `build_module::<AppModule>`. -/
def appModuleCtx (wallet_cn : ContractName) : AppModuleCtx :=
  ⟨wallet_cn⟩

/-- Context passed to `build_module::<ContractStateIndexer<Wallet, WalletEvent>>`. -/
def walletIndexerCtx (wallet_cn : ContractName) (config : Conf) : ContractStateIndexerCtx :=
  ⟨wallet_cn, config.data_directory⟩

/-- Context passed to `build_module::<ContractStateIndexer<HyllarHistory, Vec<HistoryEvent>>>`. -/
def oranjIndexerCtx (config : Conf) : ContractStateIndexerCtx :=
  ⟨"oranj", config.data_directory⟩

/-- Context passed to `build_module::<AutoProver<Wallet>>`. -/
def walletProverCtx (wallet_cn : ContractName) (config : Conf) : AutoProverCtx :=
  ⟨config.data_directory, wallet_cn, config.wallet_buffer_blocks, config.wallet_max_txs_per_proof⟩

/-- Context passed to `build_module::<AutoProver<SmtTokenProvableState>>`. -/
def oranjProverCtx (config : Conf) : AutoProverCtx :=
  ⟨config.data_directory, "oranj", config.smt_buffer_blocks, config.smt_max_txs_per_proof⟩

/-- The routing surface; `axum::Router` is opaque, we only track the routes
nested into it, so a router is the list of routes it holds. -/
abbrev Router := List String

/-- `Router::new()`: the fresh, empty routing surface. -/
def routerNew : Router := []

/-- The shared router slot as `main` initializes it:
`router: Mutex::new(Some(Router::new()))` inside `BuildApiContextInner`. -/
def initialRouterSlot : Option Router := some routerNew

/-- Rust's `Option::take` on the slot behind the mutex: returns the held
value and leaves `None` in the slot. -/
def optionTake (s : Option Router) : Option Router × Option Router :=
  (s, none)

/-- The `.expect("Context router should be available.")` applied to the
taken value: a `None` is a panic (modelled as a fatal error). -/
def routerExpect : Option Router → Except String Router
  | none => Except.error "Context router should be available."
  | some r => Except.ok r

/-- The modules whose construction context contains the shared
`api_ctx` (`BuildApiContextInner`) and can therefore register routes:
`AppModule`, the wallet indexer and the oranj indexer.  The prover, the
websocket module and the DA listener contexts in `main.rs` carry no `api`
field, and `RestApi` receives the already-taken router. -/
def routeRegistering : List ModuleKind :=
  [ModuleKind.AppModule, ModuleKind.WalletIndexer, ModuleKind.OranjIndexer]

/-- Unix signal kinds relevant to the race in `main`. -/
inductive SignalKind
  | interrupt
  | terminate
deriving DecidableEq, Repr

/-- `tokio::signal::ctrl_c()` resolves on the interrupt signal. -/
def ctrlCKind : SignalKind := SignalKind.interrupt

/-- From the code: the stream bound to the variable named `terminate` is
created with `unix::signal(unix::SignalKind::interrupt())` — it is
registered for the interrupt kind, not the terminate kind. -/
def terminateStreamKind : SignalKind := SignalKind.interrupt

/-- The log line of the branch that awaits the `terminate` stream in
`main.rs`. -/
def terminateStreamLogMessage : String := "SIGTERM received, shutting down"

/-- Decidable equality for the `Result` values the environment carries. -/
instance {e a : Type} [DecidableEq e] [DecidableEq a] : DecidableEq (Except e a) := fun x y =>
  match x, y with
  | Except.ok u, Except.ok v =>
    if h : u = v then isTrue (congrArg Except.ok h)
    else isFalse (fun hc => h (Except.ok.inj hc))
  | Except.error u, Except.error v =>
    if h : u = v then isTrue (congrArg Except.error h)
    else isFalse (fun hc => h (Except.error.inj hc))
  | Except.ok _, Except.error _ => isFalse Except.noConfusion
  | Except.error _, Except.ok _ => isFalse Except.noConfusion

/-- An event the `tokio::select!` race can observe: the `start_modules()`
future resolving (with the `Result` it resolved to), or an operating-system
signal of some kind being delivered. -/
inductive RaceEvent
  | modulesResolved (r : Except String Unit)
  | signalDelivered (k : SignalKind)
deriving DecidableEq, Repr

/-- Which select branch resolved the race. -/
inductive ResolveCause
  | moduleFailure (e : String)
  | ctrlC
  | terminateStream
deriving DecidableEq, Repr

/-- How one event is matched against the three select branches of the unix
block in `main.rs`.  The first branch has the pattern `Err(e) =
handler.start_modules()`: a resolution with `Ok` does not match the
pattern, so (per `tokio::select!` semantics) it disables the branch and
resolves nothing.  The signal branches fire when the delivered kind equals
the kind their stream was registered for. -/
def matchEvent : RaceEvent → Option ResolveCause
  | RaceEvent.modulesResolved (Except.error e) => some (ResolveCause.moduleFailure e)
  | RaceEvent.modulesResolved (Except.ok _) => none
  | RaceEvent.signalDelivered k =>
    if k = ctrlCKind then some ResolveCause.ctrlC
    else if k = terminateStreamKind then some ResolveCause.terminateStream
    else none

/-- The `tokio::select!` race over a stream of events in arrival order:
it resolves at the first event matching a branch; if no event ever
matches, the select suspends forever. -/
def selectRace : List RaceEvent → Option ResolveCause
  | [] => none
  | e :: es =>
    match matchEvent e with
    | some c => some c
    | none => selectRace es

/-- Outcomes of the fallible external calls `main` makes, plus the event
stream the race observes.  `shutdownResult` is the result of
`shutdown_modules()`; `main` discards it (`_ = ...`), so `runMain` never
reads this field. -/
structure Env where
  confResult : Except String Conf
  tracingResult : Except String Unit
  nodeClientResult : Except String Unit
  indexerClientResult : Except String Unit
  initNodeResult : Except String Unit
  createDirResult : Except String Unit
  buildResult : ModuleKind → Except String Unit
  routesOf : ModuleKind → List String
  signalRegResult : Except String Unit
  raceEvents : List RaceEvent
  shutdownResult : Except String Unit

/-- State threaded through the sequential build phase: the shared router
slot and the registry of already-built modules (insertion order = build
order). -/
structure BuildState where
  slot : Option Router
  built : List ModuleKind
deriving DecidableEq, Repr

/-- One `handler.build_module::<M>(ctx).await?` step.  Whether the
construction succeeds is the environment's `buildResult`.  Modelled from
the spec: a route-registering module "mutates the `Present` value
additively (never replaces it)" during construction — which routes it adds
is opaque (`routesOf`); modules without the `api` handle leave the slot
untouched. -/
def buildStep (env : Env) (k : ModuleKind) (s : BuildState) : Except String BuildState :=
  match env.buildResult k with
  | Except.error e => Except.error e
  | Except.ok _ =>
    Except.ok
      ⟨if k ∈ routeRegistering then s.slot.map (fun r => r ++ env.routesOf k) else s.slot,
       s.built ++ [k]⟩

/-- The sequential build loop: each `?` halts at the first failing module;
on failure we also report which modules had been built by then. -/
def buildSeq (env : Env) : List ModuleKind → BuildState →
    Except (List ModuleKind × String) BuildState
  | [], s => Except.ok s
  | k :: ks, s =>
    match buildStep env k s with
    | Except.error e => Except.error (s.built, e)
    | Except.ok s2 => buildSeq env ks s2

/-- The seven modules built before the router is taken, in the order of
the `build_module` calls in `main.rs`. -/
def preTakeOrder : List ModuleKind :=
  [ModuleKind.AppModule, ModuleKind.WalletIndexer, ModuleKind.OranjIndexer,
   ModuleKind.WalletProver, ModuleKind.OranjProver, ModuleKind.WebSocket,
   ModuleKind.DAListener]

/-- All eight modules in build order; `RestApi` is built last, after the
router has been taken. -/
def fullBuildOrder : List ModuleKind := preTakeOrder ++ [ModuleKind.RestApi]

/-- How `main` has terminated (or not): a success exit `Ok(())`, an error
exit propagated by `?`, a panic from an `expect`, or suspension (the select
never resolves). -/
inductive MainOutcome
  | exitedOk
  | exitedErr (e : String)
  | panicked (msg : String)
  | suspended
deriving DecidableEq, Repr

/-- True exactly on the panic outcome. -/
def MainOutcome.isPanic : MainOutcome → Bool
  | MainOutcome.panicked _ => true
  | _ => false

/-- Observable trace of one execution of `main`: the modules built (in
order), the registry contents at the moment the router take was attempted
(`none` when that point is never reached), how many successful takes of
the router slot happened, whether `start_modules` was started, how many
times the shutdown sweep ran, and the terminal outcome. -/
structure Trace where
  built : List ModuleKind
  builtAtTake : Option (List ModuleKind)
  takeCount : Nat
  startAttempted : Bool
  shutdownCount : Nat
  outcome : MainOutcome
deriving DecidableEq, Repr

/-- Result of the setup and pre-flight prefix of `main` (config load,
tracing, the two HTTP clients, the `init_node` pre-flight, the data
directory): either a setup error propagated by `?` / `.context(...)`, the
pre-flight soft-fail (`error!` then `return Ok(())`), or ready to build. -/
inductive Phase1Result
  | setupErr (e : String)
  | preflightExit
  | ready (config : Conf)
deriving DecidableEq, Repr

/-- The straight-line prefix of `main` up to (and including)
`std::fs::create_dir_all`, with the `.context(...)` strings of `main.rs`. -/
def phase1 (env : Env) : Phase1Result :=
  match env.confResult with
  | Except.error e => Phase1Result.setupErr ("reading config file: " ++ e)
  | Except.ok config =>
    match env.tracingResult with
    | Except.error e => Phase1Result.setupErr ("setting up tracing: " ++ e)
    | Except.ok _ =>
      match env.nodeClientResult with
      | Except.error e => Phase1Result.setupErr ("build node client: " ++ e)
      | Except.ok _ =>
        match env.indexerClientResult with
        | Except.error e => Phase1Result.setupErr ("build indexer client: " ++ e)
        | Except.ok _ =>
          match env.initNodeResult with
          | Except.error _ => Phase1Result.preflightExit
          | Except.ok _ =>
            match env.createDirResult with
            | Except.error e => Phase1Result.setupErr ("creating data directory: " ++ e)
            | Except.ok _ => Phase1Result.ready config

/-- Whether the control flow of `main` reaches the `init::init_node` call:
config load, tracing and both HTTP client constructions succeeded. -/
def registrationAttempted (env : Env) : Bool :=
  env.confResult.isOk && env.tracingResult.isOk
    && env.nodeClientResult.isOk && env.indexerClientResult.isOk

/-- The contract list `main` passes to `init::init_node` when the call is
reached (`none` when setup fails before it). -/
def registeredList (args : Args) (env : Env) : Option (List ContractInit) :=
  if registrationAttempted env then some (contracts args.wallet_cn) else none

/-- The whole of `main` (the unix configuration of the tail): setup and
pre-flight, the seven pre-take builds, the router take with its two
`expect`s, the `RestApi` build, the registration of the second signal
stream (`unix::signal(...)?`), and the `tokio::select!` race followed by
the discarded `shutdown_modules()` and `Ok(())`. -/
def runMain (_args : Args) (env : Env) : Trace :=
  match phase1 env with
  | Phase1Result.setupErr e => ⟨[], none, 0, false, 0, MainOutcome.exitedErr e⟩
  | Phase1Result.preflightExit => ⟨[], none, 0, false, 0, MainOutcome.exitedOk⟩
  | Phase1Result.ready _config =>
    match buildSeq env preTakeOrder ⟨initialRouterSlot, []⟩ with
    | Except.error (bs, e) => ⟨bs, none, 0, false, 0, MainOutcome.exitedErr e⟩
    | Except.ok s =>
      match routerExpect (optionTake s.slot).1 with
      | Except.error msg => ⟨s.built, some s.built, 0, false, 0, MainOutcome.panicked msg⟩
      | Except.ok _router =>
        match env.buildResult ModuleKind.RestApi with
        | Except.error e => ⟨s.built, some s.built, 1, false, 0, MainOutcome.exitedErr e⟩
        | Except.ok _ =>
          match env.signalRegResult with
          | Except.error e =>
            ⟨s.built ++ [ModuleKind.RestApi], some s.built, 1, false, 0,
             MainOutcome.exitedErr e⟩
          | Except.ok _ =>
            match selectRace env.raceEvents with
            | none =>
              ⟨s.built ++ [ModuleKind.RestApi], some s.built, 1, true, 0,
               MainOutcome.suspended⟩
            | some _cause =>
              ⟨s.built ++ [ModuleKind.RestApi], some s.built, 1, true, 1,
               MainOutcome.exitedOk⟩

/-! Helper lemmas about the build loop. -/

/-- One build step never empties the router slot: a successful step keeps
the slot exactly as full as it was (route registration is additive). -/
theorem buildStep_slot_isSome (env : Env) (k : ModuleKind) (s s2 : BuildState)
    (h : buildStep env k s = Except.ok s2) : s2.slot.isSome = s.slot.isSome := by
  unfold buildStep at h
  cases hk : env.buildResult k with
  | error e => rw [hk] at h; exact absurd h (by simp)
  | ok u =>
    rw [hk] at h
    cases h
    by_cases hmem : k ∈ routeRegistering <;> cases hs : s.slot <;> simp [hmem, hs]

/-- A successful run of the build loop appends exactly the requested
modules to the registry and preserves fullness of the router slot. -/
theorem buildSeq_ok (env : Env) (ks : List ModuleKind) (s : BuildState)
    (h : ∀ k ∈ ks, env.buildResult k = Except.ok ()) :
    ∃ s2, buildSeq env ks s = Except.ok s2 ∧ s2.built = s.built ++ ks
      ∧ s2.slot.isSome = s.slot.isSome := by
  induction ks generalizing s with
  | nil => exact ⟨s, rfl, by simp, rfl⟩
  | cons k ks ih =>
    have hk : env.buildResult k = Except.ok () := h k (by simp)
    have hstep : buildStep env k s =
        Except.ok ⟨if k ∈ routeRegistering then s.slot.map (fun r => r ++ env.routesOf k)
                   else s.slot, s.built ++ [k]⟩ := by
      simp [buildStep, hk]
    obtain ⟨s2, h1, h2, h3⟩ := ih _ (fun x hx => h x (by simp [hx]))
    refine ⟨s2, ?_, ?_, ?_⟩
    · simpa [buildSeq, hstep] using h1
    · rw [h2]; simp
    · rw [h3]
      by_cases hmem : k ∈ routeRegistering <;> cases hs : s.slot <;> simp [hmem, hs]

/-- If every module before `k` constructs and `k` fails, the build loop
halts at `k`, reporting exactly the modules built so far. -/
theorem buildSeq_err (env : Env) (pre : List ModuleKind) (k : ModuleKind)
    (post : List ModuleKind) (s : BuildState) (e : String)
    (hpre : ∀ j ∈ pre, env.buildResult j = Except.ok ())
    (hk : env.buildResult k = Except.error e) :
    buildSeq env (pre ++ k :: post) s = Except.error (s.built ++ pre, e) := by
  induction pre generalizing s with
  | nil => simp [buildSeq, buildStep, hk]
  | cons j pre ih =>
    have hj : env.buildResult j = Except.ok () := hpre j (by simp)
    have := ih
      ⟨if j ∈ routeRegistering then s.slot.map (fun r => r ++ env.routesOf j)
        else s.slot, s.built ++ [j]⟩
      (fun x hx => hpre x (by simp [hx]))
    simp only [List.cons_append, buildSeq, buildStep, hj] at this ⊢
    exact this.trans (by simp)

/-- Any successful run of the build loop preserves fullness of the router
slot, whatever the environment decided about each construction. -/
theorem buildSeq_slot (env : Env) (ks : List ModuleKind) (s s2 : BuildState)
    (h : buildSeq env ks s = Except.ok s2) : s2.slot.isSome = s.slot.isSome := by
  induction ks generalizing s with
  | nil => cases h; rfl
  | cons k ks ih =>
    unfold buildSeq at h
    cases hstep : buildStep env k s with
    | error e => rw [hstep] at h; exact absurd h (by simp)
    | ok s1 =>
      rw [hstep] at h
      exact (ih _ h).trans (buildStep_slot_isSome env k s s1 hstep)

/-! Concrete inputs used by witnesses and counterexamples. -/

/-- A concrete configuration value. -/
def confEx : Conf :=
  ⟨"wallet-node", "full", "http://localhost:4321", "http://localhost:4322", "data",
   10, 100, 5, 50, 4000, 10485760, "localhost:4141", "ws"⟩

/-- An environment in which every external call succeeds, each module adds
no routes, and the race is resolved by an interrupt signal. -/
def envOkBase : Env :=
  ⟨Except.ok confEx, Except.ok (), Except.ok (), Except.ok (), Except.ok (),
   Except.ok (), fun _ => Except.ok (), fun _ => [],
   Except.ok (), [RaceEvent.signalDelivered SignalKind.interrupt], Except.ok ()⟩

/-- Like `envOkBase`, but the construction of the very first module
(`AppModule`) fails. -/
def envAppBuildFail : Env :=
  ⟨Except.ok confEx, Except.ok (), Except.ok (), Except.ok (), Except.ok (),
   Except.ok (),
   fun k => match k with
     | ModuleKind.AppModule => Except.error "boom"
     | _ => Except.ok (),
   fun _ => [],
   Except.ok (), [RaceEvent.signalDelivered SignalKind.interrupt], Except.ok ()⟩

/-- Like `envOkBase`, but the construction of `AutoProver<Wallet>` fails. -/
def envProverBuildFail : Env :=
  ⟨Except.ok confEx, Except.ok (), Except.ok (), Except.ok (), Except.ok (),
   Except.ok (),
   fun k => match k with
     | ModuleKind.WalletProver => Except.error "prover down"
     | _ => Except.ok (),
   fun _ => [],
   Except.ok (), [RaceEvent.signalDelivered SignalKind.interrupt], Except.ok ()⟩

/-- Like `envOkBase`, but the only race event is `start_modules()`
resolving successfully. -/
def envRunOk : Env :=
  ⟨Except.ok confEx, Except.ok (), Except.ok (), Except.ok (), Except.ok (),
   Except.ok (), fun _ => Except.ok (), fun _ => [],
   Except.ok (), [RaceEvent.modulesResolved (Except.ok ())], Except.ok ()⟩

/-- Like `envOkBase`, but the race is resolved by a module run-loop
failure, and the shutdown sweep itself also reports an error. -/
def envRunFail : Env :=
  ⟨Except.ok confEx, Except.ok (), Except.ok (), Except.ok (), Except.ok (),
   Except.ok (), fun _ => Except.ok (), fun _ => [],
   Except.ok (), [RaceEvent.modulesResolved (Except.error "db gone")],
   Except.error "stop failed"⟩

/-- Like `envOkBase`, but the pre-flight `init_node` call fails. -/
def envPreflightFail : Env :=
  ⟨Except.ok confEx, Except.ok (), Except.ok (), Except.ok (),
   Except.error "connection refused",
   Except.ok (), fun _ => Except.ok (), fun _ => [],
   Except.ok (), [RaceEvent.signalDelivered SignalKind.interrupt], Except.ok ()⟩

/-! Claim theorems. -/

/-- C3: the claim says the unix signal source listens to two distinct
triggers, an interrupt signal and a separate terminate signal.  The code
contradicts this (and its own variable name and log line): the stream
bound to `terminate` is registered with `SignalKind::interrupt()`, the
terminate kind is registered with no branch, a delivered terminate signal
matches no select branch, while the branch's log line still claims
"SIGTERM received". -/
theorem c3_terminate_signal_not_registered :
    terminateStreamKind = SignalKind.interrupt
    ∧ ([ctrlCKind, terminateStreamKind].contains SignalKind.terminate) = false
    ∧ matchEvent (RaceEvent.signalDelivered SignalKind.terminate) = none
    ∧ terminateStreamLogMessage = "SIGTERM received, shutting down" := by
  refine ⟨rfl, rfl, ?_, rfl⟩
  simp [matchEvent, ctrlCKind, terminateStreamKind]

/-- C4: if the one-shot pre-flight node registration call returns an
error, the error is only logged and the process exits cleanly with
success, with zero modules constructed, nothing started, no router take
and no shutdown sweep. -/
theorem c4_preflight_soft_fail (args : Args) (env : Env) (config : Conf) (e : String)
    (hconf : env.confResult = Except.ok config)
    (htr : env.tracingResult = Except.ok ())
    (hnode : env.nodeClientResult = Except.ok ())
    (hind : env.indexerClientResult = Except.ok ())
    (hinit : env.initNodeResult = Except.error e) :
    (runMain args env).outcome = MainOutcome.exitedOk
    ∧ (runMain args env).built = []
    ∧ (runMain args env).shutdownCount = 0
    ∧ (runMain args env).startAttempted = false
    ∧ (runMain args env).takeCount = 0 := by
  have hp : phase1 env = Phase1Result.preflightExit := by
    simp [phase1, hconf, htr, hnode, hind, hinit]
  simp [runMain, hp]

/-- Witness for C4 at a concrete environment whose `init_node` call fails. -/
theorem c4_preflight_soft_fail_witness :
    (runMain Args.defaults envPreflightFail).outcome = MainOutcome.exitedOk
    ∧ (runMain Args.defaults envPreflightFail).built = []
    ∧ (runMain Args.defaults envPreflightFail).shutdownCount = 0
    ∧ (runMain Args.defaults envPreflightFail).startAttempted = false
    ∧ (runMain Args.defaults envPreflightFail).takeCount = 0 :=
  c4_preflight_soft_fail Args.defaults envPreflightFail confEx "connection refused"
    rfl rfl rfl rfl rfl

/-- C8: the pre-flight registration registers exactly one contract — the
wallet contract under the `--wallet_cn` name, with program id `WALLET_ID`
and initial state `Wallet::default().commit()`; every registered entry
carries the wallet program id, the name "oranj" is not in the
registration list (for any wallet name other than "oranj" itself), yet
the oranj contract is the one consumed by the history indexer and the SMT
prover contexts. -/
theorem c8_registration_list (cn : ContractName) (config : Conf) (args : Args) (env : Env)
    (hcn : (cn == "oranj") = false)
    (hreg : registrationAttempted env = true) :
    contracts cn = [⟨cn, ProgramId.WALLET_ID, StateCommitment.walletDefaultCommit⟩]
    ∧ (contracts cn).length = 1
    ∧ (∀ ci ∈ contracts cn, ci.program_id = ProgramId.WALLET_ID)
    ∧ ((contracts cn).map ContractInit.name).contains "oranj" = false
    ∧ (oranjIndexerCtx config).contract_name = "oranj"
    ∧ (oranjProverCtx config).contract_name = "oranj"
    ∧ registeredList args env = some (contracts args.wallet_cn) := by
  have hne : cn ≠ "oranj" := by simpa using hcn
  refine ⟨rfl, rfl, ?_, ?_, rfl, rfl, ?_⟩
  · intro ci hci
    simp only [contracts, List.mem_singleton] at hci
    rw [hci]
  · simp [contracts, List.contains, Ne.symm hne]
  · simp [registeredList, hreg]

/-- Witness for C8 at the default wallet name and a concrete environment
that reaches the registration call. -/
theorem c8_registration_list_witness :
    contracts "wallet" = [⟨"wallet", ProgramId.WALLET_ID, StateCommitment.walletDefaultCommit⟩]
    ∧ (contracts "wallet").length = 1
    ∧ (∀ ci ∈ contracts "wallet", ci.program_id = ProgramId.WALLET_ID)
    ∧ ((contracts "wallet").map ContractInit.name).contains "oranj" = false
    ∧ (oranjIndexerCtx confEx).contract_name = "oranj"
    ∧ (oranjProverCtx confEx).contract_name = "oranj"
    ∧ registeredList Args.defaults envOkBase = some (contracts Args.defaults.wallet_cn) :=
  c8_registration_list "wallet" confEx Args.defaults envOkBase (by decide) (by decide)

/-- C9: the two `expect` calls that unwrap the shared router can never
panic: for every environment the slot starts as `Some(Router::new())`,
construction only updates it additively, the take happens at most once on
the straight-line build path, and no execution of `main` ends in a panic. -/
theorem c9_router_expects_never_panic (args : Args) (env : Env) :
    ((runMain args env).outcome).isPanic = false
    ∧ (runMain args env).takeCount ≤ 1
    ∧ initialRouterSlot = some routerNew := by
  refine ?_
  have key : ((runMain args env).outcome).isPanic = false
      ∧ (runMain args env).takeCount ≤ 1 := by
    unfold runMain
    cases hp : phase1 env with
    | setupErr e => simp [MainOutcome.isPanic]
    | preflightExit => simp [MainOutcome.isPanic]
    | ready config =>
      cases hbs : buildSeq env preTakeOrder ⟨initialRouterSlot, []⟩ with
      | error be =>
        cases be with
        | mk bs e => simp [MainOutcome.isPanic]
      | ok s =>
        have hsome : s.slot.isSome = true :=
          (buildSeq_slot env preTakeOrder _ s hbs).trans rfl
        obtain ⟨r, hr⟩ := Option.isSome_iff_exists.mp hsome
        simp only [hr, optionTake, routerExpect]
        cases hra : env.buildResult ModuleKind.RestApi with
        | error e => simp [optionTake, routerExpect, MainOutcome.isPanic]
        | ok u =>
          cases hsr : env.signalRegResult with
          | error e => simp [optionTake, routerExpect, MainOutcome.isPanic]
          | ok u2 =>
            cases hsel : selectRace env.raceEvents with
            | none => simp [optionTake, routerExpect, MainOutcome.isPanic]
            | some c => simp [optionTake, routerExpect, MainOutcome.isPanic]
  exact ⟨key.1, key.2, rfl⟩

/-- C10: for every value of the `--wallet_cn` argument (default
"wallet"), the same contract name reaches all four sites: the pre-flight
registration list, the `AppModule` context, the wallet
`ContractStateIndexer` context, and the wallet `AutoProver` context. -/
theorem c10_wallet_cn_consistent (cn : ContractName) (config : Conf) :
    (contracts cn).map ContractInit.name = [cn]
    ∧ (appModuleCtx cn).wallet_cn = cn
    ∧ (walletIndexerCtx cn config).contract_name = cn
    ∧ (walletProverCtx cn config).contract_name = cn
    ∧ Args.defaults.wallet_cn = "wallet" :=
  ⟨rfl, rfl, rfl, rfl, rfl⟩

/-- C6: when every construction succeeds, the shared router slot is taken
exactly once, every route-registering module is among the seven modules
built strictly before the take, the `RestApi` module is built last, and a
second take attempt always fails fatally (the `expect` on the emptied
slot). -/
theorem c6_router_taken_once_last (args : Args) (env : Env) (config : Conf)
    (hp : phase1 env = Phase1Result.ready config)
    (hbuilds : ∀ k, env.buildResult k = Except.ok ()) :
    (runMain args env).takeCount = 1
    ∧ (runMain args env).builtAtTake = some preTakeOrder
    ∧ (∀ m ∈ routeRegistering, m ∈ preTakeOrder)
    ∧ (runMain args env).built = preTakeOrder ++ [ModuleKind.RestApi]
    ∧ (∀ r : Router, routerExpect (optionTake (optionTake (some r)).2).1
        = Except.error "Context router should be available.") := by
  have hstatic1 : ∀ m ∈ routeRegistering, m ∈ preTakeOrder := by decide
  have hstatic2 : ∀ r : Router, routerExpect (optionTake (optionTake (some r)).2).1
      = Except.error "Context router should be available." := fun _ => rfl
  obtain ⟨s, hbs, hb, hslot⟩ := buildSeq_ok env preTakeOrder ⟨initialRouterSlot, []⟩
    (fun k _ => hbuilds k)
  have hb2 : s.built = preTakeOrder := by simpa using hb
  obtain ⟨r, hr⟩ := Option.isSome_iff_exists.mp (hslot.trans rfl)
  have htrace : (runMain args env).takeCount = 1
      ∧ (runMain args env).builtAtTake = some preTakeOrder
      ∧ (runMain args env).built = preTakeOrder ++ [ModuleKind.RestApi] := by
    unfold runMain
    simp only [hp, hbs, hr, optionTake, routerExpect, hbuilds ModuleKind.RestApi, hb2]
    cases env.signalRegResult with
    | error e => simp
    | ok u =>
      cases selectRace env.raceEvents with
      | none => simp
      | some c => simp
  exact ⟨htrace.1, htrace.2.1, hstatic1, htrace.2.2, hstatic2⟩

/-- Witness for C6 at a concrete all-successful environment. -/
theorem c6_router_taken_once_last_witness :
    (runMain Args.defaults envOkBase).takeCount = 1
    ∧ (runMain Args.defaults envOkBase).builtAtTake = some preTakeOrder
    ∧ (∀ m ∈ routeRegistering, m ∈ preTakeOrder)
    ∧ (runMain Args.defaults envOkBase).built = preTakeOrder ++ [ModuleKind.RestApi]
    ∧ (∀ r : Router, routerExpect (optionTake (optionTake (some r)).2).1
        = Except.error "Context router should be available.") :=
  c6_router_taken_once_last Args.defaults envOkBase confEx rfl (fun _ => rfl)

/-- C7: whichever cause resolves the race, the shutdown sweep runs exactly
once afterwards and the process reaches the identical terminal state (the
same trace for every cause, every environment and every shutdown result),
exiting with success. -/
theorem c7_race_neutral_shutdown (args : Args) (env : Env) (config : Conf)
    (cause : ResolveCause)
    (hp : phase1 env = Phase1Result.ready config)
    (hbuilds : ∀ k, env.buildResult k = Except.ok ())
    (hsig : env.signalRegResult = Except.ok ())
    (hres : selectRace env.raceEvents = some cause) :
    (runMain args env).shutdownCount = 1
    ∧ (runMain args env).outcome = MainOutcome.exitedOk
    ∧ (runMain args env).startAttempted = true
    ∧ runMain args env =
      ⟨preTakeOrder ++ [ModuleKind.RestApi], some preTakeOrder, 1, true, 1,
       MainOutcome.exitedOk⟩ := by
  obtain ⟨s, hbs, hb, hslot⟩ := buildSeq_ok env preTakeOrder ⟨initialRouterSlot, []⟩
    (fun k _ => hbuilds k)
  have hb2 : s.built = preTakeOrder := by simpa using hb
  obtain ⟨r, hr⟩ := Option.isSome_iff_exists.mp (hslot.trans rfl)
  have : runMain args env =
      ⟨preTakeOrder ++ [ModuleKind.RestApi], some preTakeOrder, 1, true, 1,
       MainOutcome.exitedOk⟩ := by
    unfold runMain
    simp only [hp, hbs, hr, optionTake, routerExpect, hbuilds ModuleKind.RestApi, hsig,
      hres, hb2]
  exact ⟨by rw [this], by rw [this], by rw [this], this⟩

/-- Witness for C7: the race is resolved by a module run-loop failure and
the shutdown sweep itself errors, yet there is exactly one sweep and a
success exit. -/
theorem c7_race_neutral_shutdown_witness :
    (runMain Args.defaults envRunFail).shutdownCount = 1
    ∧ (runMain Args.defaults envRunFail).outcome = MainOutcome.exitedOk
    ∧ (runMain Args.defaults envRunFail).startAttempted = true
    ∧ runMain Args.defaults envRunFail =
      ⟨preTakeOrder ++ [ModuleKind.RestApi], some preTakeOrder, 1, true, 1,
       MainOutcome.exitedOk⟩ :=
  c7_race_neutral_shutdown Args.defaults envRunFail confEx
    (ResolveCause.moduleFailure "db gone") rfl (fun _ => rfl) rfl rfl

/-- C1 counterexample: in an execution where the construction of the first
module fails, `main` exits with an error status (the `?` on
`build_module`) and no shutdown sweep is attempted — contradicting the
claim that every execution returns a success status and surfaces errors
only via logs. -/
theorem c1_counterexample :
    (runMain Args.defaults envAppBuildFail).outcome = MainOutcome.exitedErr "boom"
    ∧ (runMain Args.defaults envAppBuildFail).shutdownCount = 0 := by
  exact ⟨rfl, rfl⟩

/-- C1 amended: a pre-flight registration failure exits with success and
no shutdown sweep, and every execution that reaches the race and sees it
resolve exits with success after the sweep, whatever the race or shutdown
results were; setup and module-construction errors, however, are
propagated via the exit status. -/
theorem c1_exit_success (args : Args) (env : Env) :
    (phase1 env = Phase1Result.preflightExit →
      (runMain args env).outcome = MainOutcome.exitedOk
      ∧ (runMain args env).shutdownCount = 0)
    ∧ (∀ config, phase1 env = Phase1Result.ready config →
        (∀ k, env.buildResult k = Except.ok ()) →
        env.signalRegResult = Except.ok () →
        (selectRace env.raceEvents).isSome = true →
        (runMain args env).outcome = MainOutcome.exitedOk
        ∧ (runMain args env).shutdownCount = 1) := by
  constructor
  · intro hp
    simp [runMain, hp]
  · intro config hp hbuilds hsig hres
    obtain ⟨cause, hc⟩ := Option.isSome_iff_exists.mp hres
    obtain ⟨s, hbs, hb, hslot⟩ := buildSeq_ok env preTakeOrder ⟨initialRouterSlot, []⟩
      (fun k _ => hbuilds k)
    obtain ⟨r, hr⟩ := Option.isSome_iff_exists.mp (hslot.trans rfl)
    unfold runMain
    simp [hp, hbs, hr, optionTake, routerExpect, hbuilds ModuleKind.RestApi, hsig, hc]

/-- Witness for C1 amended: a pre-flight failure exits with success, and a
run that ends in a module failure with a failing shutdown sweep also exits
with success after one sweep. -/
theorem c1_exit_success_witness :
    ((runMain Args.defaults envPreflightFail).outcome = MainOutcome.exitedOk
      ∧ (runMain Args.defaults envPreflightFail).shutdownCount = 0)
    ∧ ((runMain Args.defaults envRunFail).outcome = MainOutcome.exitedOk
      ∧ (runMain Args.defaults envRunFail).shutdownCount = 1) :=
  ⟨(c1_exit_success Args.defaults envPreflightFail).1 rfl,
   (c1_exit_success Args.defaults envRunFail).2 confEx rfl (fun _ => rfl) rfl rfl⟩

/-- C2 counterexample: when `start_modules()` resolves successfully (a
module run loop completing without error), the `Err(e) = ...` pattern of
the select does not match, the branch is disabled, and `main` keeps
waiting: no shutdown sweep is triggered — contradicting the claim that a
module completing successfully ends the race and triggers the sweep. -/
theorem c2_counterexample :
    (runMain Args.defaults envRunOk).outcome = MainOutcome.suspended
    ∧ (runMain Args.defaults envRunOk).shutdownCount = 0
    ∧ (runMain Args.defaults envRunOk).startAttempted = true := by
  exact ⟨rfl, rfl, rfl⟩

/-- C2 amended: after all modules are built, `main` suspends until the
first event matching a select branch; a module run loop failing resolves
the race (and the sweep then runs once), but a successful completion of
`start_modules` merely disables its branch — the race continues over the
remaining events, and if nothing else matches, `main` suspends with no
shutdown sweep. -/
theorem c2_race_first_failure (args : Args) (env : Env) (config : Conf) (e : String)
    (es : List RaceEvent)
    (hp : phase1 env = Phase1Result.ready config)
    (hbuilds : ∀ k, env.buildResult k = Except.ok ())
    (hsig : env.signalRegResult = Except.ok ()) :
    selectRace (RaceEvent.modulesResolved (Except.error e) :: es)
      = some (ResolveCause.moduleFailure e)
    ∧ selectRace (RaceEvent.modulesResolved (Except.ok ()) :: es) = selectRace es
    ∧ ((selectRace env.raceEvents).isSome = true →
        (runMain args env).shutdownCount = 1
        ∧ (runMain args env).outcome = MainOutcome.exitedOk)
    ∧ (selectRace env.raceEvents = none →
        (runMain args env).shutdownCount = 0
        ∧ (runMain args env).outcome = MainOutcome.suspended
        ∧ (runMain args env).startAttempted = true) := by
  obtain ⟨s, hbs, hb, hslot⟩ := buildSeq_ok env preTakeOrder ⟨initialRouterSlot, []⟩
    (fun k _ => hbuilds k)
  obtain ⟨r, hr⟩ := Option.isSome_iff_exists.mp (hslot.trans rfl)
  refine ⟨rfl, rfl, ?_, ?_⟩
  · intro hres
    obtain ⟨cause, hc⟩ := Option.isSome_iff_exists.mp hres
    unfold runMain
    simp [hp, hbs, hr, optionTake, routerExpect, hbuilds ModuleKind.RestApi, hsig, hc]
  · intro hnone
    unfold runMain
    simp [hp, hbs, hr, optionTake, routerExpect, hbuilds ModuleKind.RestApi, hsig, hnone]

/-- Witness for C2 amended at concrete inputs. -/
theorem c2_race_first_failure_witness :
    selectRace [RaceEvent.modulesResolved (Except.error "disk")]
      = some (ResolveCause.moduleFailure "disk")
    ∧ selectRace [RaceEvent.modulesResolved (Except.ok ())] = selectRace []
    ∧ ((selectRace envOkBase.raceEvents).isSome = true →
        (runMain Args.defaults envOkBase).shutdownCount = 1
        ∧ (runMain Args.defaults envOkBase).outcome = MainOutcome.exitedOk)
    ∧ (selectRace envOkBase.raceEvents = none →
        (runMain Args.defaults envOkBase).shutdownCount = 0
        ∧ (runMain Args.defaults envOkBase).outcome = MainOutcome.suspended
        ∧ (runMain Args.defaults envOkBase).startAttempted = true) :=
  c2_race_first_failure Args.defaults envOkBase confEx "disk" [] rfl (fun _ => rfl) rfl

/-- C5: if the construction of any single module errors while all earlier
ones succeeded, building halts at that module (only the earlier modules
are ever constructed), the error is propagated out of `main`, and no
module is ever started — `start_modules` is never reached and there is no
shutdown sweep. -/
theorem c5_build_halts (args : Args) (env : Env) (config : Conf)
    (pre post : List ModuleKind) (k : ModuleKind) (e : String)
    (hp : phase1 env = Phase1Result.ready config)
    (horder : fullBuildOrder = pre ++ k :: post)
    (hpre : ∀ j ∈ pre, env.buildResult j = Except.ok ())
    (hk : env.buildResult k = Except.error e) :
    (runMain args env).built = pre
    ∧ (runMain args env).outcome = MainOutcome.exitedErr e
    ∧ (runMain args env).startAttempted = false
    ∧ (runMain args env).shutdownCount = 0 := by
  rcases List.eq_nil_or_concat post with rfl | ⟨q, last, rfl⟩
  · -- the failing module is the last one, RestApi
    have horder2 : preTakeOrder ++ [ModuleKind.RestApi] = pre ++ [k] := horder
    obtain ⟨hstem, hlast⟩ := List.append_inj' horder2 rfl
    have hkR : k = ModuleKind.RestApi := by
      simpa using hlast.symm
    subst hkR
    obtain ⟨s, hbs, hb, hslot⟩ := buildSeq_ok env preTakeOrder ⟨initialRouterSlot, []⟩
      (fun j hj => hpre j (hstem ▸ hj))
    have hb2 : s.built = pre := by
      rw [hstem] at hb
      simpa using hb
    obtain ⟨r, hr⟩ := Option.isSome_iff_exists.mp (hslot.trans rfl)
    unfold runMain
    simp [hp, hbs, hr, optionTake, routerExpect, hk, hb2]
  · -- the failing module is one of the seven built before the take
    have horder2 : preTakeOrder ++ [ModuleKind.RestApi] = (pre ++ k :: q) ++ [last] := by
      simpa [fullBuildOrder] using horder
    obtain ⟨hstem, hlast⟩ := List.append_inj' horder2 rfl
    have herr := buildSeq_err env pre k q ⟨initialRouterSlot, []⟩ e hpre hk
    rw [← hstem] at herr
    unfold runMain
    simp only [hp, herr]
    simp

/-- Witness for C5: the construction of `AutoProver<Wallet>` fails after
the first three modules have been built. -/
theorem c5_build_halts_witness :
    (runMain Args.defaults envProverBuildFail).built
      = [ModuleKind.AppModule, ModuleKind.WalletIndexer, ModuleKind.OranjIndexer]
    ∧ (runMain Args.defaults envProverBuildFail).outcome
      = MainOutcome.exitedErr "prover down"
    ∧ (runMain Args.defaults envProverBuildFail).startAttempted = false
    ∧ (runMain Args.defaults envProverBuildFail).shutdownCount = 0 :=
  c5_build_halts Args.defaults envProverBuildFail confEx
    [ModuleKind.AppModule, ModuleKind.WalletIndexer, ModuleKind.OranjIndexer]
    [ModuleKind.OranjProver, ModuleKind.WebSocket, ModuleKind.DAListener, ModuleKind.RestApi]
    ModuleKind.WalletProver "prover down" rfl rfl (by decide) rfl

end WalletServer
